import Mathlib

set_option linter.unusedVariables false

/-!
Verification of the gutendex query-intent extraction and result-summarization
pipeline (app/llm.py and app/main.py), shallowly embedded in Lean.

The generative oracle (`get_llm_pipeline` / `pipe(...)`) is modelled as an
`Except Unit String` argument: `Except.error ()` stands for the pipeline call
raising an exception, `Except.ok response` for a completion string. The Python
standard-library `json.loads` is modelled as an abstract argument
`loads : String → Option JsonVal` (`none` = raises, `some v` = the parsed value).
String primitives (lower, strip, int parsing) are given structural
implementations over the character list so that they evaluate by reduction.
-/

namespace Gutendex

/-- JSON-like values as produced by json.loads and manipulated by the pipeline. -/
inductive JsonVal : Type
| str (s : String)
| num (n : Int)
| bool (b : Bool)
| null
| arr (xs : List JsonVal)
| obj (fields : List (String × JsonVal))

/-- A filter dictionary: Python dict of string keys to JSON values, as an
ordered association list. -/
abbrev Filter := List (String × JsonVal)

/-- Python str.lower (the queries handled here are ASCII). -/
def strLower (s : String) : String :=
  String.mk (s.data.map Char.toLower)

/-- Substring test on character lists: Python `needle in hay`. -/
def hasSublist (hay needle : List Char) : Bool :=
  match hay with
  | [] => needle.isEmpty
  | c :: t => needle.isPrefixOf (c :: t) || hasSublist t needle

/-- Python `needle in hay` on strings. -/
def strContains (hay needle : String) : Bool :=
  hasSublist hay.data needle.data

/-- llm.query_to_filter line 52: the closed vocabulary of filter keys. -/
def allowed_keys : List String :=
  ["author", "title", "language", "topic", "mime_type", "ids", "sort", "limit"]

/-- llm.extract_explicit_keys (lines 39-44): the allowed keys whose name occurs
as a substring of the lower-cased query. -/
def extract_explicit_keys (query : String) (allowed : List String) : List String :=
  allowed.filter (fun k => strContains (strLower query) k)

/-- llm.query_to_filter lines 147-149: the post-processing step that keeps a
candidate key only when it is among the explicitly mentioned keys, or is
sort or limit. -/
def sanitize_filter (query : String) (cand : Filter) : Filter :=
  let explicit_keys := extract_explicit_keys query allowed_keys
  cand.filter (fun kv => explicit_keys.contains kv.1 || kv.1 == "sort" || kv.1 == "limit")

/-- Index of the first occurrence of a character, Python str.index (none = raises). -/
def findCharIdx (c : Char) : List Char → Option Nat
  | [] => none
  | x :: t => if x == c then some 0 else (findCharIdx c t).map (· + 1)

/-- Python str.rfind: index of the last occurrence, -1 when absent. -/
def rfindChar (c : Char) (l : List Char) : Int :=
  match findCharIdx c l.reverse with
  | none => -1
  | some i => (l.length : Int) - 1 - i

/-- Python max on two integers. -/
def pyMax (a b : Int) : Int :=
  if a < b then b else a

/-- The opening brace character. -/
def braceOpen : Char := Char.ofNat 123

/-- The closing brace character. -/
def braceClose : Char := Char.ofNat 125

/-- The closing square bracket character. -/
def bracketClose : Char := Char.ofNat 93

/-- llm.query_to_filter lines 139-153, the body of the try block applied to a
completion: locate the first opening brace (its absence raises ValueError,
caught → empty dict), trim to the last closing brace or bracket, parse, and
sanitize the parsed object. `json.loads` failing, or returning a non-object on
which `.items()` raises AttributeError, is caught → empty dict. -/
def parse_filter_response (query : String) (loads : String → Option JsonVal)
    (response : String) : Filter :=
  match findCharIdx braceOpen response.data with
  | none => []
  | some json_start =>
    let js := response.data.drop json_start
    let last_brace := pyMax (rfindChar braceClose js) (rfindChar bracketClose js)
    let js2 := if last_brace != -1 then js.take (last_brace + 1).toNat else js
    match loads (String.mk js2) with
    | some (JsonVal.obj fields) => sanitize_filter query fields
    | _ => []

/-- llm.query_to_filter (lines 46-153). The pipeline call (lines 137-138) sits
before the try block, so an oracle exception propagates; a successful
completion is handled by parse_filter_response inside the try. -/
def query_to_filter (query : String) (loads : String → Option JsonVal)
    (oracle : Except Unit String) : Except Unit Filter :=
  match oracle with
  | Except.error e => Except.error e
  | Except.ok response => Except.ok (parse_filter_response query loads response)

/-- A single-quote character as a string, used by the summary templates. -/
def sq : String := String.singleton (Char.ofNat 39)

/-- Python str.strip: remove leading and trailing whitespace. -/
def strTrim (s : String) : String :=
  String.mk (((s.data.dropWhile Char.isWhitespace).reverse.dropWhile Char.isWhitespace).reverse)

/-- Author object as consumed by summarize_results: getattr(a, "name", ...)
yields none when the attribute is missing. -/
structure LlmAuthor : Type where
  name : Option String

/-- Book object as consumed by summarize_results: getattr(b, "title", "") and
getattr(b, "authors", []); a missing authors attribute is the empty list. -/
structure LlmBook : Type where
  title : Option String
  authors : List LlmAuthor

/-- llm.summarize_results lines 163-166: one sample line per book, with
"Unknown author" when the joined author names are empty. -/
def bookSample (b : LlmBook) : String :=
  let title := b.title.getD ""
  let joined := String.intercalate ", " (b.authors.map (fun a => a.name.getD "Unknown author"))
  let authors := if joined == "" then "Unknown author" else joined
  sq ++ title ++ sq ++ " by " ++ authors

/-- llm.summarize_results (lines 155-176). The `filters` parameter is unused in
the source body and kept for fidelity. The pipeline call (lines 172-173) is not
wrapped in a try, so an oracle exception propagates. A degenerate completion
(stripped empty or shorter than 10 characters) is replaced by the templated
fallback; `books` is non-empty in that branch, so only the first arm of the
source's conditional expression is reachable. -/
def summarize_results (query : String) (filters : Filter) (books : List LlmBook)
    (oracle : Except Unit String) : Except Unit String :=
  if books.isEmpty then Except.ok "No books matched your criteria."
  else
    let book_samples := (books.take 3).map bookSample
    match oracle with
    | Except.error e => Except.error e
    | Except.ok gen =>
      let summary := strTrim gen
      Except.ok <|
        if summary = "" ∨ summary.length < 10 then
          "Found " ++ toString books.length ++ " books including " ++ book_samples.headD "" ++ "."
        else summary

/-- main.chat line 91: the keys normalized into the store filter. -/
def chatAllowed : List String :=
  ["author", "title", "language", "topic", "mime_type", "ids"]

/-- Python str.isdigit: non-empty and all characters are digits. -/
def pyIsDigit (s : String) : Bool :=
  !s.data.isEmpty && s.data.all Char.isDigit

/-- Numeric value of a decimal digit string. -/
def natFromDigits (l : List Char) : Nat :=
  l.foldl (fun a c => a * 10 + (c.toNat - 48)) 0

/-- Value of a digit string (only applied when pyIsDigit holds). -/
def strToNatVal (s : String) : Int :=
  (natFromDigits s.data : Nat)

/-- main.chat line 101: `[int(x) for x in v if isinstance(x, (int, str)) and
str(x).isdigit()]`. Negative integers render with a minus sign and fail
isdigit; str(True)/str(False) are never digit strings, so booleans (which pass
the isinstance test as ints) are filtered out; other types fail isinstance. -/
def idsFromList (xs : List JsonVal) : List JsonVal :=
  xs.filterMap fun x =>
    match x with
    | JsonVal.num n => if pyIsDigit (toString n) then some (JsonVal.num n) else none
    | JsonVal.str s => if pyIsDigit s then some (JsonVal.num (strToNatVal s)) else none
    | _ => none

/-- main.chat lines 93-105: one iteration of the normalization loop. For ids, a
bool is an instance of int in Python and hits the first branch; a non-digit
string falls through every branch and the key stays absent. For other allowed
keys, a list passes through and a scalar is wrapped in a one-element list. -/
def cleanOne (cleaned : Filter) (k : String) (v : JsonVal) : Filter :=
  if chatAllowed.contains k then
    if k == "ids" then
      match v with
      | JsonVal.bool b => cleaned ++ [(k, JsonVal.arr [JsonVal.bool b])]
      | JsonVal.num n => cleaned ++ [(k, JsonVal.arr [JsonVal.num n])]
      | JsonVal.str s =>
        if pyIsDigit s then cleaned ++ [(k, JsonVal.arr [JsonVal.num (strToNatVal s)])]
        else cleaned
      | JsonVal.arr xs => cleaned ++ [(k, JsonVal.arr (idsFromList xs))]
      | _ => cleaned
    else
      match v with
      | JsonVal.arr xs => cleaned ++ [(k, JsonVal.arr xs)]
      | _ => cleaned ++ [(k, JsonVal.arr [v])]
  else cleaned

/-- main.chat lines 92-105: the whole normalization loop over the filter items. -/
def cleanFilters (filters : Filter) : Filter :=
  filters.foldl (fun cleaned kv => cleanOne cleaned kv.1 kv.2) []

/-- Word character of the regex \b boundary: alphanumeric or underscore
(the queries handled here are ASCII). -/
def isWordChar (c : Char) : Bool :=
  c.isAlphanum || c == '_'

/-- Maximal runs of word characters of a character list. A match of the
pattern "two lowercase letters between word boundaries" is exactly a maximal
word-character run of length two whose characters are both lowercase letters:
inside a longer run no boundary exists, and a shorter or mixed run cannot
match the two-letter class. -/
def wordRunsAux : List Char → List (List Char)
  | [] => []
  | [c] => if isWordChar c then [[c]] else []
  | c :: c2 :: t =>
    let rs := wordRunsAux (c2 :: t)
    if isWordChar c then
      if isWordChar c2 then
        match rs with
        | r :: rs2 => (c :: r) :: rs2
        | [] => [[c]]
      else [c] :: rs
    else rs

/-- main.chat line 111: the first match of the two-letter-word regex over the
lower-cased query, i.e. the first maximal word run that is exactly two
lowercase letters (runs like "10" are skipped, not blockers). -/
def firstTwoLetterWord (l : List Char) : Option (List Char) :=
  (wordRunsAux l).find? (fun r => r.length == 2 && r.all Char.isLower)

/-- main.chat line 114: the whitelist of injectable language codes. -/
def langWhitelist : List String := ["fr", "en", "de", "es", "it"]

/-- main.chat lines 107-115: when the cleaned filter lacks a language key and
the lower-cased query has a standalone two-letter word in the whitelist,
inject it as the language. -/
def injectLanguage (query : String) (cleaned : Filter) : Filter :=
  if (cleaned.map Prod.fst).contains "language" then cleaned
  else
    match firstTwoLetterWord (strLower query).data with
    | some w =>
      let lang := String.mk w
      if langWhitelist.contains lang then
        cleaned ++ [("language", JsonVal.arr [JsonVal.str lang])]
      else cleaned
    | none => cleaned

/-- Python int(s) on a string: strip whitespace, optional sign, decimal digits
(numeric-literal underscores are not modelled; no query uses them). -/
def pyIntOfString (s : String) : Option Int :=
  let t := strTrim s
  match t.data with
  | [] => none
  | c :: rest =>
    if c == '-' then
      if !rest.isEmpty && rest.all Char.isDigit then some (-(natFromDigits rest : Int)) else none
    else if c == '+' then
      if !rest.isEmpty && rest.all Char.isDigit then some ((natFromDigits rest : Nat) : Int) else none
    else
      if (c :: rest).all Char.isDigit then some ((natFromDigits (c :: rest) : Nat) : Int) else none

/-- Python int(v) over JSON values: ints pass through, bools are ints, strings
parse as integer literals; lists, objects and null raise (none). -/
def pyIntCoerce : JsonVal → Option Int
  | JsonVal.num n => some n
  | JsonVal.bool b => some (if b then 1 else 0)
  | JsonVal.str s => pyIntOfString s
  | _ => none

/-- Python dict .get on the association list: the first binding for the key. -/
def lookup (f : Filter) (k : String) : Option JsonVal :=
  (f.find? (fun kv => kv.1 == k)).map Prod.snd

/-- main.chat lines 117-122: limit defaults to 25 when absent, and falls back
to 25 when int() raises on the stored value. -/
def chatLimit (filters : Filter) : Int :=
  let limit := (lookup filters "limit").getD (JsonVal.num 25)
  match pyIntCoerce limit with
  | some n => n
  | none => 25

/-- Outcome of the chat handler up to the BookSearchStore call: a 400 response
raised before any store or summarizer call, or the exact arguments handed to
crud.get_books. -/
inductive ChatOutcome : Type
| badRequest (code : Nat) (detail : String)
| ok (storeFilters : Filter) (limit : Int) (sortKey : Option JsonVal)

/-- main.chat line 88: the detail string of the 400 response. -/
def chatBadRequestDetail : String :=
  "Sorry, I couldn" ++ sq ++ "t parse any filters from that query."

/-- main.chat lines 85-126: the handler control flow from the extracted filter
up to the store call. A falsy (empty) filter dict raises 400 immediately;
otherwise the normalized, language-injected filter, the coerced limit and the
sort value are handed to the store. -/
def chat (query : String) (filters : Filter) : ChatOutcome :=
  if filters.isEmpty then ChatOutcome.badRequest 400 chatBadRequestDetail
  else
    let cleaned := injectLanguage query (cleanFilters filters)
    ChatOutcome.ok cleaned (chatLimit filters) (lookup filters "sort")

/-- Modelled from the spec: IntentMatch (§3), the router's tagged variant.
The IntentRouter is absent from src: main.py imports extract_filter from
app.llm, which defines no such function. -/
inductive IntentMatch : Type
| noMatch
| topN (n : Int)
| mostDownloaded
| latestN (n : Int)
deriving DecidableEq

/-- Word-boundary test on the character preceding a match position: the start
of the string, or a non-word character, satisfies the regex \b before a
pattern beginning with a word character. -/
def prevBoundary : Option Char → Bool
  | none => true
  | some c => !isWordChar c

/-- Word-boundary test on the characters following a match: the end of the
string, or a non-word character, satisfies the regex \b after a pattern
ending with a word character. -/
def nextBoundary : List Char → Bool
  | [] => true
  | c :: _ => !isWordChar c

/-- Modelled from the spec: a word-bounded occurrence of a literal pattern
anywhere in the text, i.e. the regex \b pat \b applied to the lower-cased
query (the patterns used here begin and end with word characters). `prev` is
the character just before the current scan position; every position is tried,
as regex search does. -/
def hasWordBounded (pat : List Char) (prev : Option Char) : List Char → Bool
  | [] => false
  | c :: t =>
    (pat.isPrefixOf (c :: t) && prevBoundary prev &&
      nextBoundary ((c :: t).drop pat.length))
    || hasWordBounded pat (some c) t

/-- Modelled from the spec: the first match of the regex \b marker \d+ \b —
a word-bounded occurrence of the marker (e.g. "top " or "latest ") followed
directly by digits with a boundary after them — returning the integer. A
marker occurrence that fails the boundary or digit tests is skipped and the
scan continues at later positions, as regex search does. -/
def numAfterBounded (pat : List Char) (prev : Option Char) : List Char → Option Int
  | [] => none
  | c :: t =>
    if pat.isPrefixOf (c :: t) && prevBoundary prev then
      let rest := (c :: t).drop pat.length
      let ds := rest.takeWhile Char.isDigit
      if !ds.isEmpty && nextBoundary (rest.drop ds.length) then
        some ((natFromDigits ds : Nat) : Int)
      else numAfterBounded pat (some c) t
    else numAfterBounded pat (some c) t

/-- Modelled from the spec: IntentRouter.route (§4.1), absent from src.
Case-insensitively over the lower-cased query: the pattern
\bmost downloaded\b|\btop \d+\b wins first, with the trailing integer after a
word-bounded "top " (most-downloaded semantics, limit 1, when no such integer
exists); else \blatest\b with the trailing integer after "latest " defaulting
to 1; else no match. So "laptop 5" matches nothing (no boundary before "top"),
while "top speed, top 3" matches at its second "top". -/
def route (query : String) : IntentMatch :=
  let q := (strLower query).data
  if hasWordBounded "most downloaded".data none q ||
      (numAfterBounded "top ".data none q).isSome then
    match numAfterBounded "top ".data none q with
    | some n => IntentMatch.topN n
    | none => IntentMatch.mostDownloaded
  else if hasWordBounded "latest".data none q then
    IntentMatch.latestN ((numAfterBounded "latest ".data none q).getD 1)
  else IntentMatch.noMatch

/-- Modelled from the spec: the shortcut filter of an intent (§4.1), none when
the router defers to the generative fallback. -/
def shortcutFilter : IntentMatch → Option Filter
  | IntentMatch.noMatch => none
  | IntentMatch.topN n =>
    some [("sort", JsonVal.str "download_count:desc"), ("limit", JsonVal.num n)]
  | IntentMatch.mostDownloaded =>
    some [("sort", JsonVal.str "download_count:desc"), ("limit", JsonVal.num 1)]
  | IntentMatch.latestN n =>
    some [("sort", JsonVal.str "latest"), ("limit", JsonVal.num n)]

/-- Modelled from the spec: extract_filter (imported by main.py line 9 but
absent from app/llm.py). Consults the IntentRouter first and only falls back to
the generative extractor when no shortcut matches (§2, §5 ordering guarantee);
the Bool records whether the oracle was invoked. -/
def extract_filter (query : String) (loads : String → Option JsonVal)
    (oracle : Except Unit String) : Except Unit (Filter × Bool) :=
  match shortcutFilter (route query) with
  | some f => Except.ok (f, false)
  | none => (query_to_filter query loads oracle).map (fun f => (f, true))

/-- C1: for every query matching a deterministic shortcut intent, the pipeline
returns the router's shortcut filter without invoking the oracle, and in
particular "Most Downloaded book" yields sort download_count:desc with limit 1
and no oracle call. -/
theorem c1_intent_shortcut_before_oracle (q : String) (loads : String → Option JsonVal)
    (oracle : Except Unit String) (f : Filter)
    (h : shortcutFilter (route q) = some f) :
    extract_filter q loads oracle = Except.ok (f, false) ∧
    extract_filter "Most Downloaded book" loads oracle =
      Except.ok ([("sort", JsonVal.str "download_count:desc"), ("limit", JsonVal.num 1)], false) := by
  constructor
  · unfold extract_filter
    rw [h]
  · rfl

theorem c1_intent_shortcut_before_oracle_inst :
    extract_filter "Most Downloaded book" (fun _ => none) (Except.error ()) =
      Except.ok ([("sort", JsonVal.str "download_count:desc"), ("limit", JsonVal.num 1)], false) :=
  (c1_intent_shortcut_before_oracle "Most Downloaded book" (fun _ => none) (Except.error ())
    [("sort", JsonVal.str "download_count:desc"), ("limit", JsonVal.num 1)] rfl).1

/-- C2: every key of a sanitized filter lies in the closed vocabulary of the
eight allowed keys, for every candidate mapping and every query. -/
theorem c2_sanitize_closed_key_set (q : String) (cand : Filter) (k : String) (v : JsonVal)
    (h : (k, v) ∈ sanitize_filter q cand) : k ∈ allowed_keys := by
  unfold sanitize_filter at h
  rcases List.mem_filter.mp h with ⟨-, hp⟩
  simp only [Bool.or_eq_true, beq_iff_eq] at hp
  rcases hp with (hc | hs) | hl
  · exact List.mem_of_mem_filter (List.elem_iff.mp hc)
  · rw [hs]; decide
  · rw [hl]; decide

theorem c2_sanitize_closed_key_set_inst : "title" ∈ allowed_keys := by
  have h : ("title", JsonVal.str "x") ∈ sanitize_filter "title x" [("title", JsonVal.str "x")] := by
    show ("title", JsonVal.str "x") ∈ [("title", JsonVal.str "x")]
    exact List.mem_singleton.mpr rfl
  exact c2_sanitize_closed_key_set "title x" [("title", JsonVal.str "x")] "title"
    (JsonVal.str "x") h

/-- C3 counterexample: with a query containing no intent word, sort and limit
are nevertheless retained; with a query containing "id" but not "ids", the ids
key is nevertheless dropped. This refutes the claimed intent-word gating of
sort/limit and the claimed "id" substring rule for ids. -/
theorem c3_counterexample_sort_limit_ids :
    sanitize_filter "" [("sort", JsonVal.str "latest"), ("limit", JsonVal.num 5)] =
      [("sort", JsonVal.str "latest"), ("limit", JsonVal.num 5)] ∧
    ([("sort", JsonVal.str "latest"), ("limit", JsonVal.num 5)] : Filter) ≠ [] ∧
    sanitize_filter "book id 5" [("ids", JsonVal.arr [JsonVal.num 5])] = [] :=
  ⟨rfl, by simp, rfl⟩

/-- C3 amended: sanitization retains sort and limit unconditionally, and
retains any other candidate key exactly when it is an allowed key whose name
occurs as a substring of the lower-cased query (so ids requires the substring
"ids", not "id"). -/
theorem c3_sanitize_retention_rule (q : String) (cand : Filter) (k : String) (v : JsonVal) :
    (k, v) ∈ sanitize_filter q cand ↔
      (k, v) ∈ cand ∧
        (k = "sort" ∨ k = "limit" ∨
          (k ∈ allowed_keys ∧ strContains (strLower q) k = true)) := by
  unfold sanitize_filter
  rw [List.mem_filter]
  apply and_congr_right
  intro _
  unfold extract_explicit_keys
  simp only [Bool.or_eq_true, beq_iff_eq]
  constructor
  · rintro ((hc | hs) | hl)
    · have := List.mem_filter.mp (List.elem_iff.mp hc)
      exact Or.inr (Or.inr this)
    · exact Or.inl hs
    · exact Or.inr (Or.inl hl)
  · rintro (hs | hl | ⟨hm, hsub⟩)
    · exact Or.inl (Or.inr hs)
    · exact Or.inr hl
    · exact Or.inl (Or.inl (List.elem_iff.mpr (List.mem_filter.mpr ⟨hm, hsub⟩)))

/-- C4 counterexample: an oracle-invocation failure propagates out of
query_to_filter instead of degrading to the empty filter (the pipeline call is
outside the try block). -/
theorem c4_counterexample_oracle_error_propagates :
    query_to_filter "any query" (fun _ => none) (Except.error ()) = Except.error () ∧
    (Except.error () : Except Unit Filter) ≠ Except.ok [] :=
  ⟨rfl, by simp⟩

/-- C4 amended: when every parse attempt fails, extraction of a successful
completion returns the empty filter without raising; but an exception of the
oracle invocation itself propagates to the caller. -/
theorem c4_parse_failure_empty_filter (q : String) (loads : String → Option JsonVal)
    (e : Unit) (r : String) (hloads : ∀ s, loads s = none) :
    query_to_filter q loads (Except.error e) = Except.error e ∧
    query_to_filter q loads (Except.ok r) = Except.ok [] := by
  refine ⟨rfl, ?_⟩
  show Except.ok (parse_filter_response q loads r) = Except.ok []
  unfold parse_filter_response
  cases hfind : findCharIdx braceOpen r.data with
  | none => rfl
  | some i =>
    simp only [hloads]

theorem c4_parse_failure_empty_filter_inst :
    query_to_filter "x" (fun _ => none) (Except.error ()) = Except.error () ∧
    query_to_filter "x" (fun _ => none) (Except.ok "there is no json here") = Except.ok [] :=
  c4_parse_failure_empty_filter "x" (fun _ => none) () "there is no json here" (fun _ => rfl)

/-- C5 counterexample: with one book and a degenerate (empty) completion, the
fallback summary is "Found 1 books including ..." rather than the claimed
"Found 1 books matching your query.", and an oracle-invocation failure
propagates instead of falling back. -/
theorem c5_counterexample_fallback_template :
    summarize_results "q" [] [⟨some "T", [⟨some "A"⟩]⟩] (Except.ok "") =
      Except.ok ("Found 1 books including " ++ sq ++ "T" ++ sq ++ " by A.") ∧
    ("Found 1 books including " ++ sq ++ "T" ++ sq ++ " by A.") ≠
      "Found 1 books matching your query." ∧
    summarize_results "q" [] [⟨some "T", [⟨some "A"⟩]⟩] (Except.error ()) = Except.error () :=
  ⟨rfl, by decide, rfl⟩

/-- C5 amended: for a non-empty book list, a completion whose stripped text is
empty or shorter than 10 characters is replaced by the deterministic sentence
"Found {count} books including {first sample}." containing the literal count;
an oracle-invocation exception is not caught and propagates. -/
theorem c5_degenerate_fallback (q : String) (fs : Filter) (books : List LlmBook)
    (gen : String) (e : Unit) (hne : books ≠ [])
    (hdeg : strTrim gen = "" ∨ (strTrim gen).length < 10) :
    summarize_results q fs books (Except.ok gen) =
      Except.ok ("Found " ++ toString books.length ++ " books including " ++
        ((books.take 3).map bookSample).headD "" ++ ".") ∧
    summarize_results q fs books (Except.error e) = Except.error e := by
  obtain ⟨b, t, rfl⟩ : ∃ b t, books = b :: t := by
    cases books with
    | nil => exact absurd rfl hne
    | cons b t => exact ⟨b, t, rfl⟩
  constructor
  · show Except.ok
        (if strTrim gen = "" ∨ (strTrim gen).length < 10 then
          "Found " ++ toString (b :: t).length ++ " books including " ++
            (((b :: t).take 3).map bookSample).headD "" ++ "."
        else strTrim gen) = _
    rw [if_pos hdeg]
  · rfl

theorem c5_degenerate_fallback_inst :
    summarize_results "q" [] [⟨some "T", [⟨some "A"⟩]⟩] (Except.ok "tiny") =
      Except.ok ("Found " ++
        toString ([(⟨some "T", [⟨some "A"⟩]⟩ : LlmBook)] : List LlmBook).length ++
        " books including " ++
        ((([(⟨some "T", [⟨some "A"⟩]⟩ : LlmBook)] : List LlmBook).take 3).map
          bookSample).headD "" ++ ".") ∧
    summarize_results "q" [] [⟨some "T", [⟨some "A"⟩]⟩] (Except.error ()) = Except.error () :=
  c5_degenerate_fallback "q" [] [⟨some "T", [⟨some "A"⟩]⟩] "tiny" () (by simp) (by decide)

/-- C6 counterexample: the candidate with an empty ids list yields a cleaned
filter in which the ids key is still present, mapped to the empty list, rather
than being absent. -/
theorem c6_counterexample_empty_ids_present :
    cleanFilters [("ids", JsonVal.arr [])] = [("ids", JsonVal.arr [])] ∧
    "ids" ∈ (cleanFilters [("ids", JsonVal.arr [])]).map Prod.fst :=
  ⟨rfl, by decide⟩

/-- C6 amended: a string "1342" is coerced to the list with the integer 1342, a
mixed list keeps only its numeric entries, and an empty candidate list yields
the ids key present with an empty list value (not an absent key). -/
theorem c6_ids_coercion_amended :
    cleanFilters [("ids", JsonVal.str "1342")] = [("ids", JsonVal.arr [JsonVal.num 1342])] ∧
    cleanFilters [("ids", JsonVal.arr [JsonVal.str "1342", JsonVal.str "abc"])] =
      [("ids", JsonVal.arr [JsonVal.num 1342])] ∧
    cleanFilters [("ids", JsonVal.arr [])] = [("ids", JsonVal.arr [])] :=
  ⟨rfl, rfl, rfl⟩

/-- C7 counterexample: a limit value that int() cannot coerce is kept by
sanitization and the fetch limit is replaced by the default 25 — the key is
neither dropped from the filter nor left undefaulted. -/
theorem c7_counterexample_limit_kept_and_defaulted :
    sanitize_filter "anything" [("limit", JsonVal.str "abc")] = [("limit", JsonVal.str "abc")] ∧
    ([("limit", JsonVal.str "abc")] : Filter) ≠ [] ∧
    chatLimit [("limit", JsonVal.str "abc")] = 25 ∧
    pyIntCoerce (JsonVal.str "abc") = none :=
  ⟨rfl, by simp, rfl, rfl⟩

/-- C7 amended: a malformed limit is retained by sanitization (limit is kept
unconditionally) and the chat handler uses the default 25 in its place when
coercion fails. -/
theorem c7_malformed_limit_retained_defaulted (q : String) (f : Filter) (v : JsonVal)
    (cand : Filter) (hv : lookup f "limit" = some v) (hbad : pyIntCoerce v = none)
    (hm : ("limit", v) ∈ cand) :
    chatLimit f = 25 ∧ ("limit", v) ∈ sanitize_filter q cand := by
  constructor
  · unfold chatLimit
    rw [hv, Option.getD_some]
    show (match pyIntCoerce v with
      | some n => n
      | none => 25 : Int) = (25 : Int)
    rw [hbad]
  · unfold sanitize_filter
    refine List.mem_filter.mpr ⟨hm, ?_⟩
    simp

theorem c7_malformed_limit_retained_defaulted_inst :
    chatLimit [("limit", JsonVal.str "abc")] = 25 ∧
    ("limit", JsonVal.str "abc") ∈ sanitize_filter "anything" [("limit", JsonVal.str "abc")] :=
  c7_malformed_limit_retained_defaulted "anything" [("limit", JsonVal.str "abc")]
    (JsonVal.str "abc") [("limit", JsonVal.str "abc")] rfl rfl (List.Mem.head _)

/-- C8: sanitization is idempotent — sanitizing an already-sanitized filter
against the same query returns an identical filter. -/
theorem c8_sanitize_idempotent (q : String) (cand : Filter) :
    sanitize_filter q (sanitize_filter q cand) = sanitize_filter q cand := by
  have h : ∀ (p : String × JsonVal → Bool) (l : Filter),
      List.filter p (List.filter p l) = List.filter p l := by
    intro p l
    rw [List.filter_filter]
    simp only [Bool.and_self]
  exact h _ cand

/-- C9: an empty extracted filter makes the chat handler raise a 400 with the
could-not-parse detail before any store or summarizer call (the bad-request
outcome carries no store-call arguments), never a browse-all query. -/
theorem c9_empty_filter_bad_request (q : String) (filters : Filter) (h : filters = []) :
    chat q filters = ChatOutcome.badRequest 400 chatBadRequestDetail := by
  subst h
  rfl

theorem c9_empty_filter_bad_request_inst :
    chat "anything at all" [] = ChatOutcome.badRequest 400 chatBadRequestDetail :=
  c9_empty_filter_bad_request "anything at all" [] rfl

/-- C10: when the cleaned filter lacks a language key and the first standalone
two-letter word of the lower-cased query is in the whitelist, the chat handler
appends language = [that word] to the filter handed to the store — even for an
ordinary English word such as "it". -/
theorem c10_language_injection (q : String) (filters : Filter) (w : List Char)
    (hne : filters ≠ [])
    (hlang : ((cleanFilters filters).map Prod.fst).contains "language" = false)
    (hw : firstTwoLetterWord (strLower q).data = some w)
    (hin : langWhitelist.contains (String.mk w) = true) :
    chat q filters = ChatOutcome.ok
      (cleanFilters filters ++ [("language", JsonVal.arr [JsonVal.str (String.mk w)])])
      (chatLimit filters) (lookup filters "sort") := by
  obtain ⟨kv, t, rfl⟩ : ∃ kv t, filters = kv :: t := by
    cases filters with
    | nil => exact absurd rfl hne
    | cons kv t => exact ⟨kv, t, rfl⟩
  have hchat : chat q (kv :: t) = ChatOutcome.ok (injectLanguage q (cleanFilters (kv :: t)))
      (chatLimit (kv :: t)) (lookup (kv :: t) "sort") := rfl
  rw [hchat]
  unfold injectLanguage
  rw [hlang, hw]
  show ChatOutcome.ok
      (if false = true then cleanFilters (kv :: t)
       else if langWhitelist.contains (String.mk w) = true then
         cleanFilters (kv :: t) ++ [("language", JsonVal.arr [JsonVal.str (String.mk w)])]
       else cleanFilters (kv :: t)) _ _ = _
  rw [hin]
  simp

theorem c10_language_injection_inst :
    chat "top 10 it books" [("topic", JsonVal.str "x")] = ChatOutcome.ok
      (cleanFilters [("topic", JsonVal.str "x")] ++
        [("language", JsonVal.arr [JsonVal.str (String.mk [Char.ofNat 105, Char.ofNat 116])])])
      (chatLimit [("topic", JsonVal.str "x")]) (lookup [("topic", JsonVal.str "x")] "sort") :=
  c10_language_injection "top 10 it books" [("topic", JsonVal.str "x")]
    [Char.ofNat 105, Char.ofNat 116] (by simp) (by decide) (by decide) (by decide)

end Gutendex
